import Mathlib

/-
Shallow embedding of src/main.py (AutomaticThermalCycling): a Python script
that drives a climatic chamber over a TCP text protocol and a Keithley
dual-channel power supply over VISA through 8 cold/hot thermal cycles.

Modelling choices:
* Chamber responses form an oracle `Nat → String` (one reply per query,
  consumed in order); the raw transport is opaque, per the spec's scope.
* Every externally visible action is an `Event`; executions yield traces.
* The Python dynamic values that matter here are `PyVal` (int or str);
  CPython cross-type equality between `str` and `int` is `False`, which
  `pyEq` reproduces.  `check_chamber` returns the split token as a str.
* `while` loops carry explicit fuel; exhausting it yields `Res.hang`,
  standing for an execution that is still inside the loop at that point.
* The Python `IndexError` raised by `split_response[1]` on a short
  response is `PyErr.indexError`; exceptions propagate through `Res.bind`.
* Console prints and the operator `input(...)` text are not modelled as
  data (console I/O is excluded by the spec's scope); the blocking
  operator acknowledgment itself is recorded as the event `Event.prompt`.
* The VISA resource open (main.py lines 69-77) exits the process before
  any of the behavior the claims mention, so the model starts at the
  identity query of line 79; the supply identity string and the chamber
  connection outcome are parameters.
-/

namespace TC

/-- Python runtime values relevant to main.py: ints and strs. -/
inductive PyVal where
  | int (i : Int)
  | str (s : String)
deriving DecidableEq

/-- CPython equality on these values: cross-type `str == int` is False. -/
def pyEq : PyVal → PyVal → Bool
  | .int a, .int b => a == b
  | .str a, .str b => a == b
  | _, _ => false

/-- Exceptions main.py can actually raise in the modelled region. -/
inductive PyErr where
  | indexError
deriving DecidableEq

/-- Externally visible actions of the script, in program order. -/
inductive Event where
  | chamberSend (msg : String)
  | supplyWrite (cmd : String)
  | supplyQuery (cmd : String)
  | sleep (seconds : Nat)
  | prompt
deriving DecidableEq

/-- Outcome of running a piece of the script: it finishes normally with a
value (carrying its event trace and the next chamber-response index), it
raises, or it is still running when the loop fuel is exhausted. -/
inductive Res (α : Type) where
  | done (tr : List Event) (k : Nat) (a : α)
  | exn (tr : List Event) (e : PyErr)
  | hang (tr : List Event)
deriving DecidableEq

/-- Prepend already-emitted events to an outcome's trace. -/
def Res.pre {α : Type} (es : List Event) : Res α → Res α
  | .done tr k a => .done (es ++ tr) k a
  | .exn tr e => .exn (es ++ tr) e
  | .hang tr => .hang (es ++ tr)

/-- Sequencing: exceptions and hangs propagate, traces accumulate. -/
def Res.bind {α β : Type} : Res α → (Nat → α → Res β) → Res β
  | .done tr k a, f => Res.pre tr (f k a)
  | .exn tr e, _ => .exn tr e
  | .hang tr, _ => .hang tr

/-- The events an outcome emitted (also for raised or hung executions). -/
def Res.trace {α : Type} : Res α → List Event
  | .done tr _ _ => tr
  | .exn tr _ => tr
  | .hang tr => tr

/-- Did the execution finish normally? -/
def Res.isDone {α : Type} : Res α → Bool
  | .done _ _ _ => true
  | _ => false

/-- The space character, the separator of `response.split(" ")`. -/
def spaceChar : Char := ' '

/-- Helper for `pySplitSpace`, accumulating the current token reversed. -/
def splitSpaceAux : List Char → List Char → List (List Char)
  | [], acc => [acc.reverse]
  | c :: rest, acc =>
    if c == spaceChar then acc.reverse :: splitSpaceAux rest []
    else splitSpaceAux rest (c :: acc)

/-- Python `s.split(" ")` with an explicit single-space separator: keeps
empty tokens and returns `[""]` on the empty string, as CPython does. -/
def pySplitSpace (s : String) : List String :=
  (splitSpaceAux s.toList []).map (fun cs => String.mk cs)

/-- The status request of main.py line 12. -/
def qMsg : String := "$01I \r"

/-- The fixed ramp/control suffix of the set command, main.py line 27. -/
def setSuffix : String := " 10 100 1200 010000000000000000000 \r"

/-- The full set-temperature command of main.py line 27. -/
def setMsg (t : Int) : String := "$01E " ++ toString t ++ setSuffix

/-- main.py lines 10-21, `check_chamber(sock)`: send the status request,
split the reply on spaces and return token index 1 -- as a str, with no
numeric conversion.  A reply with fewer than 2 tokens raises IndexError. -/
def check_chamber (oracle : Nat → String) (k : Nat) : Res PyVal :=
  match pySplitSpace (oracle k) with
  | _ :: t :: _ => .done [.chamberSend qMsg] (k + 1) (.str t)
  | _ => .exn [.chamberSend qMsg] .indexError

/-- main.py lines 24-30, `set_chamber(sock, temperature)`: send the set
command, then re-query.  The read-back comparison
`if check_chamber(sock) == temperature` only guards a console print, so
both branches of the `if` below return normally. -/
def set_chamber (oracle : Nat → String) (k : Nat) (temp : Int) : Res Unit :=
  Res.pre [.chamberSend (setMsg temp)]
    (Res.bind (check_chamber oracle k) (fun k2 v =>
      if pyEq v (.int temp) then .done [] k2 () else .done [] k2 ()))

/-- main.py lines 36-37 and 53-54, `while check_chamber(sock) != target:
time.sleep(30)`: query first, exit before any sleep if the comparison
succeeds, otherwise sleep 30 s and re-query.  `fuel` bounds how many loop
iterations we unfold; running out gives `Res.hang`. -/
def waitTemp (oracle : Nat → String) (target : Int) : Nat → Nat → Res Unit
  | _, 0 => .hang []
  | k, fuel + 1 =>
    Res.bind (check_chamber oracle k) (fun k2 v =>
      if pyEq v (.int target) then .done [] k2 ()
      else Res.pre [.sleep 30] (waitTemp oracle target k2 fuel))

/-- Supply command strings, main.py lines 39-41/48-49/55-57/64-65. -/
def selCh1 : String := "inst:sel ch1"

/-- Channel-2 select command. -/
def selCh2 : String := "inst:sel ch2"

/-- Output-stage enable command. -/
def enabOn : String := "source:outp:enab on"

/-- Output engage command. -/
def outpOn : String := "source:outp on"

/-- Output-stage disable command. -/
def enabOff : String := "source:outp:enab off"

/-- Output disengage command (the short form used after disabling). -/
def outpOff : String := ":outp off"

/-- main.py lines 39-44: engage channel 1, 20 min ramp, 1 h dwell. -/
def coldEngage : List Event :=
  [.supplyWrite selCh1, .supplyWrite enabOn, .supplyWrite outpOn,
   .sleep 1200, .sleep 3600]

/-- main.py lines 48-50: disable channel 1 and the 2 s settle sleep. -/
def coldRelease : List Event :=
  [.supplyWrite enabOff, .supplyWrite outpOff, .sleep 2]

/-- main.py lines 55-60: engage channel 2, 15 min ramp, 1 h dwell. -/
def hotEngage : List Event :=
  [.supplyWrite selCh2, .supplyWrite enabOn, .supplyWrite outpOn,
   .sleep 900, .sleep 3600]

/-- main.py lines 64-66: disable channel 2 and the 2 s settle sleep. -/
def hotRelease : List Event :=
  [.supplyWrite enabOff, .supplyWrite outpOff, .sleep 2]

/-- main.py lines 45-47 and 61-63: `if cycle_num == 7: input(...)`. -/
def promptIf (n : Nat) : List Event := if n == 7 then [.prompt] else []

/-- main.py lines 33-66, `single_cycle(sock, cycle_num)`: set -40, poll
until reached, cold hold (with the operator gate on cycle 7), release,
then set 0, poll, hot hold (same gate), release. -/
def single_cycle (oracle : Nat → String) (n : Nat) (k fuel : Nat) : Res Unit :=
  Res.bind (set_chamber oracle k (-40)) (fun k1 _ =>
    Res.bind (waitTemp oracle (-40) k1 fuel) (fun k2 _ =>
      Res.pre (coldEngage ++ promptIf n ++ coldRelease)
        (Res.bind (set_chamber oracle k2 0) (fun k3 _ =>
          Res.bind (waitTemp oracle 0 k3 fuel) (fun k4 _ =>
            .done (hotEngage ++ promptIf n ++ hotRelease) k4 ())))))

/-- Unfolding of the run loop of main.py lines 140-145.  The first
argument counts the loop iterations still possible before the guard
`cycle_counter < 8` must fail; `mainLoop` supplies `8 - counter`, so the
`0` base case coincides with the guard being false. -/
def mainLoopAux (oracle : Nat → String) (fuel : Nat) :
    Nat → Nat → Nat → Res Nat
  | 0, counter, k => .done [] k counter
  | steps + 1, counter, k =>
    if counter < 8 then
      Res.bind (single_cycle oracle counter k fuel) (fun k2 _ =>
        mainLoopAux oracle fuel steps (counter + 1) k2)
    else .done [] k counter

/-- main.py lines 140-145: `cycle_counter = 0; while cycle_counter < 8:
single_cycle(s, cycle_counter); cycle_counter += 1`.  Returns the final
counter value when (if ever) the loop exits. -/
def mainLoop (oracle : Nat → String) (fuel counter k : Nat) : Res Nat :=
  mainLoopAux oracle fuel (8 - counter) counter k

/-- Does the character list start with the given needle? -/
def charsStartWith : List Char → List Char → Bool
  | _, [] => true
  | [], _ :: _ => false
  | a :: as, b :: bs => a == b && charsStartWith as bs

/-- Contiguous-sublist test on character lists. -/
def hasSub : List Char → List Char → Bool
  | [], needle => needle.isEmpty
  | a :: rest, needle => charsStartWith (a :: rest) needle || hasSub rest needle

/-- Python `needle in hay` on strings: contiguous substring test. -/
def strContains (hay needle : String) : Bool := hasSub hay.toList needle.toList

/-- The vendor marker checked at main.py line 81. -/
def vendor : String := "Keithley"

/-- main.py line 81: `"Keithley" in supply_id`. -/
def idnOk (idn : String) : Bool := strContains idn vendor

/-- The chamber's hardcoded address, main.py lines 93 and 99. -/
def peerHost : String := "10.10.21.238"

/-- The identity query of main.py line 79. -/
def idnQuery : String := "*IDN?"

/-- Voltage/current configuration commands of main.py lines 110-119. -/
def volt1 : String := "source:volt 5V"

/-- Channel-2 voltage command. -/
def volt2 : String := "source:volt 10.25V"

/-- Current-limit command (both channels). -/
def currMax : String := "source:curr MAX"

/-- Voltage read-back query. -/
def voltQ : String := "source:volt?"

/-- Current read-back query. -/
def currQ : String := "source:curr?"

/-- Outcome of `s.connect(('10.10.21.238', 2049))` at main.py line 93:
either the 5 s timeout fires (caught at line 94) or a stream connection
is established and `getpeername()` reports the given peer. -/
inductive ConnectRes where
  | timedOut
  | connected (host : String) (port : Nat)
deriving DecidableEq

/-- Where the startup of main.py lines 79-137 ends up: `quit()` at the
supply-identity check, `quit()` at the chamber-connection check, or ready
to enter the cycle loop.  Each carries the events emitted so far. -/
inductive StartupResult where
  | badSupply (tr : List Event)
  | badChamber (tr : List Event)
  | ready (tr : List Event)
deriving DecidableEq

/-- Events of a startup outcome. -/
def StartupResult.trace : StartupResult → List Event
  | .badSupply tr => tr
  | .badChamber tr => tr
  | .ready tr => tr

/-- Did startup reach the cycle loop? -/
def StartupResult.isReady : StartupResult → Bool
  | .ready _ => true
  | _ => false

/-- Did startup `quit()` at the supply-identity check? -/
def failedAtSupply : StartupResult → Bool
  | .badSupply _ => true
  | _ => false

/-- main.py lines 107-120: select each channel, safety-disable its
output, set voltage and current limit, read both back. -/
def configEvents : List Event :=
  [.supplyWrite selCh1, .supplyWrite enabOff, .supplyWrite volt1,
   .supplyWrite currMax, .supplyQuery voltQ, .supplyQuery currQ,
   .supplyWrite selCh2, .supplyWrite enabOff, .supplyWrite volt2,
   .supplyWrite currMax, .supplyQuery voltQ, .supplyQuery currQ]

/-- main.py lines 122-137: the wiring self-test flash -- channel 1 on for
1 s then off, 2 s settle, channel 2 on for 1 s then off, 2 s settle. -/
def flashEvents : List Event :=
  [.supplyWrite selCh1, .supplyWrite enabOn, .supplyWrite outpOn,
   .sleep 1, .supplyWrite enabOff, .supplyWrite outpOff, .sleep 2,
   .supplyWrite selCh2, .supplyWrite enabOn, .supplyWrite outpOn,
   .sleep 1, .supplyWrite enabOff, .supplyWrite outpOff, .sleep 2]

/-- main.py lines 88-137, reached only when the identity check passed:
`quit()` on a connect timeout (lines 92-98) or when `getpeername()` is
not the hardcoded target (lines 99-105); otherwise configure both
channels and run the self-test flash. -/
def chamberGate : ConnectRes → StartupResult
  | .timedOut => .badChamber [.supplyQuery idnQuery]
  | .connected h p =>
    if (h, p) = (peerHost, 2049) then
      .ready (.supplyQuery idnQuery :: (configEvents ++ flashEvents))
    else .badChamber [.supplyQuery idnQuery]

/-- main.py lines 79-137: query the supply identity and `quit()` unless
it contains "Keithley"; then the chamber gate, channel configuration and
the self-test flash.  No chamber command is sent during startup. -/
def startup (idn : String) (conn : ConnectRes) : StartupResult :=
  if idnOk idn = true then chamberGate conn
  else .badSupply [.supplyQuery idnQuery]

/-- Outcome of a whole run of the script. -/
inductive RunOutcome where
  | aborted (tr : List Event)
  | finished (tr : List Event) (counter : Nat)
  | raised (tr : List Event) (e : PyErr)
  | hung (tr : List Event)
deriving DecidableEq

/-- Events of a run outcome. -/
def RunOutcome.trace : RunOutcome → List Event
  | .aborted tr => tr
  | .finished tr _ => tr
  | .raised tr _ => tr
  | .hung tr => tr

/-- Did the run reach the final line of main.py (all cycles completed)? -/
def RunOutcome.isFinished : RunOutcome → Bool
  | .finished _ _ => true
  | _ => false

/-- The whole script: startup, then the 8-cycle loop from counter 0. -/
def programRun (idn : String) (conn : ConnectRes) (oracle : Nat → String)
    (fuel : Nat) : RunOutcome :=
  match startup idn conn with
  | .badSupply tr => .aborted tr
  | .badChamber tr => .aborted tr
  | .ready tr =>
    match mainLoop oracle fuel 0 0 with
    | .done tr2 _ c => .finished (tr ++ tr2) c
    | .exn tr2 e => .raised (tr ++ tr2) e
    | .hang tr2 => .hung (tr ++ tr2)

/-- Is an event a chamber send? -/
def isChamberSend : Event → Bool
  | .chamberSend _ => true
  | _ => false

/-- Number of chamber commands in a trace. -/
def chamberSendCount (tr : List Event) : Nat := tr.countP isChamberSend

/-- Is an event a chamber send or a sleep (the only events the cycle loop
can emit, given that the polling loops never exit)? -/
def isCS : Event → Bool
  | .chamberSend _ => true
  | .sleep _ => true
  | _ => false

/-- All events of the trace are chamber sends or sleeps. -/
def onlyCS (tr : List Event) : Bool := tr.all isCS

/-- The settle property exactly as the claim states it: scanning the
trace with the currently selected channel, `d1`/`d2` hold the seconds
slept since the most recent disable of channel 1/2 (`none` if it was
never disabled); every enable of a channel requires at least 2 s of sleep
since the other channel's most recent disable. -/
def settleCheck : List Event → Nat → Option Nat → Option Nat → Bool
  | [], _, _, _ => true
  | Event.supplyWrite s :: rest, cur, d1, d2 =>
    if s = selCh1 then settleCheck rest 1 d1 d2
    else if s = selCh2 then settleCheck rest 2 d1 d2
    else if s = enabOn then
      (if cur == 1 then (match d2 with | some a => decide (2 ≤ a) | none => true)
       else if cur == 2 then (match d1 with | some a => decide (2 ≤ a) | none => true)
       else true)
      && settleCheck rest cur d1 d2
    else if s = enabOff then
      (if cur == 1 then settleCheck rest cur (some 0) d2
       else if cur == 2 then settleCheck rest cur d1 (some 0)
       else settleCheck rest cur d1 d2)
    else settleCheck rest cur d1 d2
  | Event.sleep n :: rest, cur, d1, d2 =>
    settleCheck rest cur (Option.map (fun a => a + n) d1)
      (Option.map (fun a => a + n) d2)
  | _ :: rest, cur, d1, d2 => settleCheck rest cur d1 d2

/-- The amended settle property: as `settleCheck`, but a disable arms the
constraint only when that channel's output had actually been enabled
(`on1`/`on2` track the output-stage state); the startup configuration's
precautionary disables of never-enabled outputs are exempt.  `pend` holds
the armed channel and the seconds slept since its disable. -/
def settleA : List Event → Nat → Bool → Bool → Option (Nat × Nat) → Bool
  | [], _, _, _, _ => true
  | Event.supplyWrite s :: rest, cur, on1, on2, pend =>
    if s = selCh1 then settleA rest 1 on1 on2 pend
    else if s = selCh2 then settleA rest 2 on1 on2 pend
    else if s = enabOn then
      (match pend with
       | some (c, a) => c == cur || decide (2 ≤ a)
       | none => true)
      && settleA rest cur (if cur == 1 then true else on1)
          (if cur == 2 then true else on2) none
    else if s = enabOff then
      settleA rest cur (if cur == 1 then false else on1)
        (if cur == 2 then false else on2)
        (if (cur == 1 && on1) || (cur == 2 && on2) then some (cur, 0) else pend)
    else settleA rest cur on1 on2 pend
  | Event.sleep n :: rest, cur, on1, on2, pend =>
    settleA rest cur on1 on2
      (match pend with | some (c, a) => some (c, a + n) | none => none)
  | _ :: rest, cur, on1, on2, pend => settleA rest cur on1 on2 pend

/-- A supply identity string containing the expected vendor marker. -/
def goodIdn : String := "Keithley instruments, 2230G-30-1"

/-- A chamber connection whose peer matches the hardcoded target. -/
def goodConn : ConnectRes := .connected peerHost 2049

/-- The simulated chamber of claim C3 during the (sole) cold phase the
run ever reaches: every reply reports the requested set-point -40 as its
second token. -/
def simOracle : Nat → String := fun _ => "cc -40 ok"

/-- A well-formed reply whose temperature differs from the request. -/
def mismatchResp : String := "cc -39 ok"

theorem Res.isDone_pre {α : Type} (es : List Event) (r : Res α) :
    (Res.pre es r).isDone = r.isDone := by
  cases r <;> rfl

theorem Res.trace_pre {α : Type} (es : List Event) (r : Res α) :
    (Res.pre es r).trace = es ++ r.trace := by
  cases r <;> rfl

theorem Res.isDone_bind_left {α β : Type} (m : Res α) (f : Nat → α → Res β)
    (h : m.isDone = false) : (Res.bind m f).isDone = false := by
  cases m with
  | done tr k a => simp [Res.isDone] at h
  | exn tr e => rfl
  | hang tr => rfl

theorem Res.trace_bind_left {α β : Type} (m : Res α) (f : Nat → α → Res β)
    (h : m.isDone = false) : (Res.bind m f).trace = m.trace := by
  cases m with
  | done tr k a => simp [Res.isDone] at h
  | exn tr e => rfl
  | hang tr => rfl

theorem Res.bind_done {α β : Type} (tr : List Event) (k : Nat) (a : α)
    (f : Nat → α → Res β) :
    Res.bind (Res.done tr k a) f = Res.pre tr (f k a) := rfl

theorem Res.bind_exn {α β : Type} (tr : List Event) (e : PyErr)
    (f : Nat → α → Res β) :
    Res.bind (Res.exn tr e) f = Res.exn tr e := rfl

theorem check_chamber_shape (oracle : Nat → String) (k : Nat) :
    (∃ t, check_chamber oracle k
        = Res.done [Event.chamberSend qMsg] (k + 1) (PyVal.str t))
    ∨ check_chamber oracle k = Res.exn [Event.chamberSend qMsg] PyErr.indexError := by
  unfold check_chamber
  rcases h : pySplitSpace (oracle k) with _ | ⟨a, _ | ⟨b, rest⟩⟩
  · right; rfl
  · right; rfl
  · left; exact ⟨b, rfl⟩

theorem set_chamber_shape (oracle : Nat → String) (k : Nat) (temp : Int) :
    set_chamber oracle k temp
      = Res.done [Event.chamberSend (setMsg temp), Event.chamberSend qMsg] (k + 1) ()
    ∨ set_chamber oracle k temp
      = Res.exn [Event.chamberSend (setMsg temp), Event.chamberSend qMsg] PyErr.indexError := by
  rcases check_chamber_shape oracle k with ⟨t, hc⟩ | hc
  · left; simp [set_chamber, hc, Res.bind, Res.pre, ite_self]
  · right; simp [set_chamber, hc, Res.bind, Res.pre]

theorem waitTemp_succ (oracle : Nat → String) (target : Int) (k n : Nat)
    (t : String)
    (hc : check_chamber oracle k
        = Res.done [Event.chamberSend qMsg] (k + 1) (PyVal.str t)) :
    waitTemp oracle target k (n + 1)
      = Res.pre [Event.chamberSend qMsg]
          (Res.pre [Event.sleep 30] (waitTemp oracle target (k + 1) n)) := by
  show Res.bind (check_chamber oracle k) (fun k2 v =>
      if pyEq v (PyVal.int target) = true then Res.done [] k2 ()
      else Res.pre [Event.sleep 30] (waitTemp oracle target k2 n)) = _
  rw [hc, Res.bind_done]
  rfl

theorem waitTemp_succ_exn (oracle : Nat → String) (target : Int) (k n : Nat)
    (hc : check_chamber oracle k
        = Res.exn [Event.chamberSend qMsg] PyErr.indexError) :
    waitTemp oracle target k (n + 1)
      = Res.exn [Event.chamberSend qMsg] PyErr.indexError := by
  show Res.bind (check_chamber oracle k) (fun k2 v =>
      if pyEq v (PyVal.int target) = true then Res.done [] k2 ()
      else Res.pre [Event.sleep 30] (waitTemp oracle target k2 n)) = _
  rw [hc, Res.bind_exn]

theorem waitTemp_not_done (oracle : Nat → String) (target : Int) :
    ∀ fuel k, (waitTemp oracle target k fuel).isDone = false := by
  intro fuel
  induction fuel with
  | zero => intro k; rfl
  | succ n ih =>
    intro k
    rcases check_chamber_shape oracle k with ⟨t, hc⟩ | hc
    · rw [waitTemp_succ oracle target k n t hc, Res.isDone_pre, Res.isDone_pre]
      exact ih (k + 1)
    · rw [waitTemp_succ_exn oracle target k n hc]
      rfl

theorem single_cycle_not_done (oracle : Nat → String) (n k fuel : Nat) :
    (single_cycle oracle n k fuel).isDone = false := by
  unfold single_cycle
  rcases set_chamber_shape oracle k (-40) with hs | hs
  · rw [hs, Res.bind_done, Res.isDone_pre]
    exact Res.isDone_bind_left _ _ (waitTemp_not_done oracle (-40) fuel (k + 1))
  · rw [hs, Res.bind_exn]
    rfl

theorem waitTemp_events (oracle : Nat → String) (target : Int) :
    ∀ fuel k, onlyCS (waitTemp oracle target k fuel).trace = true := by
  intro fuel
  induction fuel with
  | zero => intro k; rfl
  | succ n ih =>
    intro k
    rcases check_chamber_shape oracle k with ⟨t, hc⟩ | hc
    · rw [waitTemp_succ oracle target k n t hc, Res.trace_pre, Res.trace_pre]
      have h2 := ih (k + 1)
      unfold onlyCS at h2 ⊢
      simp [List.all_append, isCS, h2]
    · rw [waitTemp_succ_exn oracle target k n hc]
      rfl

theorem single_cycle_events (oracle : Nat → String) (n k fuel : Nat) :
    onlyCS (single_cycle oracle n k fuel).trace = true := by
  unfold single_cycle
  rcases set_chamber_shape oracle k (-40) with hs | hs
  · rw [hs, Res.bind_done, Res.trace_pre]
    have hw : ((fun k1 (_ : Unit) =>
        Res.bind (waitTemp oracle (-40) k1 fuel) (fun k2 _ =>
          Res.pre (coldEngage ++ promptIf n ++ coldRelease)
            (Res.bind (set_chamber oracle k2 0) (fun k3 _ =>
              Res.bind (waitTemp oracle 0 k3 fuel) (fun k4 _ =>
                Res.done (hotEngage ++ promptIf n ++ hotRelease) k4 ())))))
          (k + 1) ()).trace
        = (waitTemp oracle (-40) (k + 1) fuel).trace :=
      Res.trace_bind_left _ _ (waitTemp_not_done oracle (-40) fuel (k + 1))
    rw [hw]
    have h2 := waitTemp_events oracle (-40) fuel (k + 1)
    unfold onlyCS at h2 ⊢
    simp [List.all_append, isCS, h2]
  · rw [hs, Res.bind_exn]
    rfl

theorem onlyCS_count_prompt (tr : List Event) (h : onlyCS tr = true) :
    tr.count Event.prompt = 0 := by
  rw [List.count_eq_zero]
  intro hmem
  have hall := List.all_eq_true.mp h Event.prompt hmem
  simp [isCS] at hall

theorem set_chamber_done (oracle : Nat → String) (k : Nat) (temp : Int)
    (t : String)
    (hc : check_chamber oracle k
        = Res.done [Event.chamberSend qMsg] (k + 1) (PyVal.str t)) :
    set_chamber oracle k temp
      = Res.done [Event.chamberSend (setMsg temp), Event.chamberSend qMsg] (k + 1) () := by
  unfold set_chamber
  rw [hc, Res.bind_done]
  rfl

theorem single_cycle_trace_eq (oracle : Nat → String) (n k fuel : Nat)
    (t : String)
    (hc : check_chamber oracle k
        = Res.done [Event.chamberSend qMsg] (k + 1) (PyVal.str t)) :
    (single_cycle oracle n k fuel).trace
      = [Event.chamberSend (setMsg (-40)), Event.chamberSend qMsg]
          ++ (waitTemp oracle (-40) (k + 1) fuel).trace := by
  unfold single_cycle
  rw [set_chamber_done oracle k (-40) t hc, Res.bind_done, Res.trace_pre]
  have hw : ((fun k1 (_ : Unit) =>
      Res.bind (waitTemp oracle (-40) k1 fuel) (fun k2 _ =>
        Res.pre (coldEngage ++ promptIf n ++ coldRelease)
          (Res.bind (set_chamber oracle k2 0) (fun k3 _ =>
            Res.bind (waitTemp oracle 0 k3 fuel) (fun k4 _ =>
              Res.done (hotEngage ++ promptIf n ++ hotRelease) k4 ())))))
        (k + 1) ()).trace
      = (waitTemp oracle (-40) (k + 1) fuel).trace :=
    Res.trace_bind_left _ _ (waitTemp_not_done oracle (-40) fuel (k + 1))
  rw [hw]

theorem mainLoop_zero (oracle : Nat → String) (fuel : Nat) :
    mainLoop oracle fuel 0 0
      = Res.bind (single_cycle oracle 0 0 fuel) (fun k2 _ =>
          mainLoopAux oracle fuel 7 1 k2) := rfl

theorem mainLoop_zero_not_done (oracle : Nat → String) (fuel : Nat) :
    (mainLoop oracle fuel 0 0).isDone = false := by
  rw [mainLoop_zero]
  exact Res.isDone_bind_left _ _ (single_cycle_not_done oracle 0 0 fuel)

theorem mainLoop_zero_trace (oracle : Nat → String) (fuel : Nat) :
    (mainLoop oracle fuel 0 0).trace = (single_cycle oracle 0 0 fuel).trace := by
  rw [mainLoop_zero]
  exact Res.trace_bind_left _ _ (single_cycle_not_done oracle 0 0 fuel)

theorem programRun_not_finished (idn : String) (conn : ConnectRes)
    (oracle : Nat → String) (fuel : Nat) :
    (programRun idn conn oracle fuel).isFinished = false := by
  unfold programRun
  cases hs : startup idn conn with
  | badSupply tr => rfl
  | badChamber tr => rfl
  | ready tr =>
    cases hm : mainLoop oracle fuel 0 0 with
    | done tr2 k2 c =>
      have h2 := mainLoop_zero_not_done oracle fuel
      rw [hm] at h2
      simp [Res.isDone] at h2
    | exn tr2 e => rfl
    | hang tr2 => rfl

theorem chamberGate_connected (h : String) (p : Nat) :
    chamberGate (ConnectRes.connected h p)
      = if (h, p) = (peerHost, 2049) then
          StartupResult.ready
            (Event.supplyQuery idnQuery :: (configEvents ++ flashEvents))
        else StartupResult.badChamber [Event.supplyQuery idnQuery] := rfl

theorem startup_ready_trace (idn : String) (conn : ConnectRes)
    (tr : List Event) (hs : startup idn conn = StartupResult.ready tr) :
    tr = Event.supplyQuery idnQuery :: (configEvents ++ flashEvents) := by
  unfold startup at hs
  by_cases hid : idnOk idn = true
  · rw [if_pos hid] at hs
    cases conn with
    | timedOut => exact StartupResult.noConfusion hs
    | connected h p =>
      rw [chamberGate_connected] at hs
      by_cases hp : (h, p) = (peerHost, 2049)
      · rw [if_pos hp] at hs
        injection hs with h1
        exact h1.symm
      · rw [if_neg hp] at hs
        exact StartupResult.noConfusion hs
  · rw [if_neg hid] at hs
    exact StartupResult.noConfusion hs

theorem startup_badSupply_trace (idn : String) (conn : ConnectRes)
    (tr : List Event) (hs : startup idn conn = StartupResult.badSupply tr) :
    tr = [Event.supplyQuery idnQuery] := by
  unfold startup at hs
  by_cases hid : idnOk idn = true
  · rw [if_pos hid] at hs
    cases conn with
    | timedOut => exact StartupResult.noConfusion hs
    | connected h p =>
      rw [chamberGate_connected] at hs
      by_cases hp : (h, p) = (peerHost, 2049)
      · rw [if_pos hp] at hs
        exact StartupResult.noConfusion hs
      · rw [if_neg hp] at hs
        exact StartupResult.noConfusion hs
  · rw [if_neg hid] at hs
    injection hs with h1
    exact h1.symm

theorem startup_badChamber_trace (idn : String) (conn : ConnectRes)
    (tr : List Event) (hs : startup idn conn = StartupResult.badChamber tr) :
    tr = [Event.supplyQuery idnQuery] := by
  unfold startup at hs
  by_cases hid : idnOk idn = true
  · rw [if_pos hid] at hs
    cases conn with
    | timedOut =>
      injection hs with h1
      exact h1.symm
    | connected h p =>
      rw [chamberGate_connected] at hs
      by_cases hp : (h, p) = (peerHost, 2049)
      · rw [if_pos hp] at hs
        exact StartupResult.noConfusion hs
      · rw [if_neg hp] at hs
        injection hs with h1
        exact h1.symm
  · rw [if_neg hid] at hs
    exact StartupResult.noConfusion hs

theorem programRun_trace_ready (idn : String) (conn : ConnectRes)
    (oracle : Nat → String) (fuel : Nat) (tr : List Event)
    (hs : startup idn conn = StartupResult.ready tr) :
    (programRun idn conn oracle fuel).trace
      = tr ++ (mainLoop oracle fuel 0 0).trace := by
  unfold programRun
  rw [hs]
  cases hm : mainLoop oracle fuel 0 0 <;> rfl

theorem settleA_onlyCS :
    ∀ (tr : List Event), onlyCS tr = true →
      ∀ cur o1 o2 pend, settleA tr cur o1 o2 pend = true := by
  intro tr
  induction tr with
  | nil => intro _ cur o1 o2 pend; rfl
  | cons e rest ih =>
    intro h cur o1 o2 pend
    have hh : isCS e = true ∧ onlyCS rest = true := by
      unfold onlyCS at h
      rw [List.all_cons, Bool.and_eq_true] at h
      exact h
    cases e with
    | chamberSend s => exact ih hh.2 cur o1 o2 pend
    | sleep m => exact ih hh.2 cur o1 o2 _
    | supplyWrite s => simp [isCS] at hh
    | supplyQuery s => simp [isCS] at hh
    | prompt => simp [isCS] at hh

theorem settleA_startup_head (t : List Event) :
    settleA ((Event.supplyQuery idnQuery :: (configEvents ++ flashEvents)) ++ t)
        0 false false none
      = settleA t 2 false false (some (2, 2)) := rfl

theorem waitTemp_count_set (oracle : Nat → String) (target : Int) :
    ∀ fuel k, ((waitTemp oracle target k fuel).trace).count
        (Event.chamberSend (setMsg (-40))) = 0 := by
  intro fuel
  induction fuel with
  | zero => intro k; rfl
  | succ n ih =>
    intro k
    rcases check_chamber_shape oracle k with ⟨t, hc⟩ | hc
    · rw [waitTemp_succ oracle target k n t hc, Res.trace_pre, Res.trace_pre]
      have h1 : ¬ qMsg = setMsg (-40) := by decide
      simp [List.count_append, List.count_cons, h1, ih (k + 1)]
    · rw [waitTemp_succ_exn oracle target k n hc]
      decide

theorem startup_good_ready :
    startup goodIdn goodConn
      = StartupResult.ready
          (Event.supplyQuery idnQuery :: (configEvents ++ flashEvents)) := by
  decide

theorem check_sim :
    check_chamber simOracle 0
      = Res.done [Event.chamberSend qMsg] 1 (PyVal.str ("-40")) := rfl

theorem programRun_sim_trace (fuel : Nat) :
    (programRun goodIdn goodConn simOracle fuel).trace
      = (Event.supplyQuery idnQuery :: (configEvents ++ flashEvents))
          ++ ([Event.chamberSend (setMsg (-40)), Event.chamberSend qMsg]
            ++ (waitTemp simOracle (-40) 1 fuel).trace) := by
  rw [programRun_trace_ready goodIdn goodConn simOracle fuel _ startup_good_ready,
    mainLoop_zero_trace, single_cycle_trace_eq simOracle 0 0 fuel ("-40") check_sim]

theorem programRun_sim_count_set (fuel : Nat) :
    ((programRun goodIdn goodConn simOracle fuel).trace).count
        (Event.chamberSend (setMsg (-40))) = 1 := by
  rw [programRun_sim_trace fuel, List.count_append, List.count_append]
  have hA : (Event.supplyQuery idnQuery :: (configEvents ++ flashEvents)).count
      (Event.chamberSend (setMsg (-40))) = 0 := by decide
  have hB : ([Event.chamberSend (setMsg (-40)), Event.chamberSend qMsg]).count
      (Event.chamberSend (setMsg (-40))) = 1 := by decide
  rw [hA, hB, waitTemp_count_set simOracle (-40) fuel 1]

theorem programRun_sim_count_prompt (fuel : Nat) :
    ((programRun goodIdn goodConn simOracle fuel).trace).count Event.prompt
      = 0 := by
  rw [programRun_sim_trace fuel, List.count_append, List.count_append]
  have hA : (Event.supplyQuery idnQuery :: (configEvents ++ flashEvents)).count
      Event.prompt = 0 := by decide
  have hB : ([Event.chamberSend (setMsg (-40)), Event.chamberSend qMsg]).count
      Event.prompt = 0 := by decide
  rw [hA, hB, onlyCS_count_prompt _ (waitTemp_events simOracle (-40) fuel 1)]

/-- C1: the claim says the wait-for-temperature loop exits exactly when
the chamber reports the requested target, with no further poll when the
first reply already reports it.  In the code the loop can never exit: for
every oracle, target, fuel and response index the loop never finishes
(`check_chamber` returns a str, which CPython never equates with the int
target), and concretely, a chamber that reports -40 on every query is
still polled and slept on at every step. -/
theorem claim1_wait_loop_never_exits :
    (∀ (oracle : Nat → String) (target : Int) (fuel k : Nat),
      (waitTemp oracle target k fuel).isDone = false)
    ∧ waitTemp simOracle (-40) 0 2
        = Res.hang [Event.chamberSend qMsg, Event.sleep 30,
            Event.chamberSend qMsg, Event.sleep 30] := by
  constructor
  · intro oracle target fuel k
    exact waitTemp_not_done oracle target fuel k
  · decide

/-- C2: the claim says `check_chamber` parses the second token to its
numeric value and raises ProtocolError on malformed responses.  In the
code a non-numeric second token is returned as an unparsed str without
any error, and a response with fewer than 2 tokens raises IndexError. -/
theorem claim2_raw_token_and_index_error :
    check_chamber (fun _ => "cc abc") 0
        = Res.done [Event.chamberSend qMsg] 1 (PyVal.str ("abc"))
    ∧ check_chamber (fun _ => "nospace") 0
        = Res.exn [Event.chamberSend qMsg] PyErr.indexError := by
  constructor <;> rfl

/-- C3: against the simulated chamber that reports the requested
set-point (-40) on every query and a compliant supply, the claim says a
full run completes 8 cycles with 16 set commands and 2 prompts.  In the
code the run never finishes for any fuel, issues exactly 1 set command,
and prompts 0 times: it stalls forever in the first cold wait. -/
theorem claim3_simulated_run_stalls :
    (∀ fuel, (programRun goodIdn goodConn simOracle fuel).isFinished = false)
    ∧ (∀ fuel, ((programRun goodIdn goodConn simOracle fuel).trace).count
          (Event.chamberSend (setMsg (-40))) = 1)
    ∧ (∀ fuel, ((programRun goodIdn goodConn simOracle fuel).trace).count
          Event.prompt = 0) :=
  ⟨fun fuel => programRun_not_finished goodIdn goodConn simOracle fuel,
   fun fuel => programRun_sim_count_set fuel,
   fun fuel => programRun_sim_count_prompt fuel⟩

/-- C4: the claim says the run loop terminates exactly when the
completed-cycle counter reaches 8.  In the code the loop from counter 0
never finishes, and no whole run ever reaches the final line, for any
supply identity, chamber connection, responses and fuel: the first call
to `single_cycle` never returns. -/
theorem claim4_run_loop_never_terminates :
    (∀ (oracle : Nat → String) (fuel : Nat),
      (mainLoop oracle fuel 0 0).isDone = false)
    ∧ (∀ (idn : String) (conn : ConnectRes) (oracle : Nat → String) (fuel : Nat),
        (programRun idn conn oracle fuel).isFinished = false) :=
  ⟨fun o f => mainLoop_zero_not_done o f,
   fun i c o f => programRun_not_finished i c o f⟩

/-- C5: `set_chamber` always sends exactly the command embedding the
requested temperature verbatim between the fixed head and the fixed
ramp-profile suffix, then re-queries the chamber; and whenever the reply
to the re-query is well formed (at least 2 tokens), the call returns
normally regardless of whether the read-back token matches the request
(a mismatch only skips a console print and is never fatal). -/
theorem claim5_set_command_and_tolerant_readback :
    ∀ (t : Int) (oracle : Nat → String) (k : Nat),
      (set_chamber oracle k t).trace
          = [Event.chamberSend (setMsg t), Event.chamberSend qMsg]
      ∧ (∀ a b rest, pySplitSpace (oracle k) = a :: b :: rest →
          set_chamber oracle k t
            = Res.done [Event.chamberSend (setMsg t), Event.chamberSend qMsg]
                (k + 1) ()) := by
  intro t oracle k
  constructor
  · rcases set_chamber_shape oracle k t with hs | hs <;> rw [hs] <;> rfl
  · intro a b rest hsplit
    have hc : check_chamber oracle k
        = Res.done [Event.chamberSend qMsg] (k + 1) (PyVal.str b) := by
      unfold check_chamber
      rw [hsplit]
    exact set_chamber_done oracle k t b hc

/-- Witness for C5 at a concrete input with a mismatching read-back: the
chamber answers -39 to the re-query after a -40 set command, the reply is
well formed, and `set_chamber` still returns normally. -/
theorem claim5_witness :
    pySplitSpace mismatchResp = ["cc", "-39", "ok"]
    ∧ set_chamber (fun _ => mismatchResp) 0 (-40)
        = Res.done [Event.chamberSend (setMsg (-40)), Event.chamberSend qMsg]
            1 () :=
  ⟨by decide,
   (claim5_set_command_and_tolerant_readback (-40) (fun _ => mismatchResp) 0).2
     ("cc") ("-39") (["ok"]) (by decide)⟩

/-- C6: the claim says that with cycle index 7 `single_cycle` blocks for
the operator acknowledgment in both hold phases.  In the code a call with
index 7 never emits any prompt event, for every oracle, response index
and fuel: both `input(...)` sites sit after the cold wait loop, which
never exits. -/
theorem claim6_no_prompt_even_on_cycle7 :
    ∀ (oracle : Nat → String) (k fuel : Nat),
      ((single_cycle oracle 7 k fuel).trace).count Event.prompt = 0 := by
  intro oracle k fuel
  exact onlyCS_count_prompt _ (single_cycle_events oracle 7 k fuel)

/-- C7 counterexample: the settle property exactly as claimed -- every
enable of a channel must come at least 2 s of sleep after the other
channel's most recent disable -- is false on a real run: during startup
the self-test flash enables channel 1 immediately after channel 2's
configuration-stage disable, with no sleep in between. -/
theorem claim7_counterexample :
    settleCheck ((programRun goodIdn goodConn simOracle 0).trace)
        0 none none = false := by
  decide

/-- C7 amended: restricted to disables of an output that had actually
been enabled (the startup configuration's precautionary disables of
never-enabled outputs exempted), every enable of a channel comes at
least 2 s of sleep after the other channel's most recent armed disable,
on every run of the program. -/
theorem claim7_amended_settle_after_active_disable :
    ∀ (idn : String) (conn : ConnectRes) (oracle : Nat → String) (fuel : Nat),
      settleA ((programRun idn conn oracle fuel).trace) 0 false false none
        = true := by
  intro idn conn oracle fuel
  unfold programRun
  cases hs : startup idn conn with
  | badSupply tr =>
    rw [startup_badSupply_trace idn conn tr hs]
    rfl
  | badChamber tr =>
    rw [startup_badChamber_trace idn conn tr hs]
    rfl
  | ready tr =>
    rw [startup_ready_trace idn conn tr hs]
    cases hm : mainLoop oracle fuel 0 0 with
    | done tr2 k2 c =>
      have h2 := mainLoop_zero_not_done oracle fuel
      rw [hm] at h2
      simp [Res.isDone] at h2
    | exn tr2 e =>
      have h2 : tr2 = (single_cycle oracle 0 0 fuel).trace := by
        have h3 := mainLoop_zero_trace oracle fuel
        rw [hm] at h3
        exact h3
      rw [h2]
      show settleA ((Event.supplyQuery idnQuery :: (configEvents ++ flashEvents))
          ++ (single_cycle oracle 0 0 fuel).trace) 0 false false none = true
      rw [settleA_startup_head]
      exact settleA_onlyCS ((single_cycle oracle 0 0 fuel).trace)
        (single_cycle_events oracle 0 0 fuel) 2 false false (some (2, 2))
    | hang tr2 =>
      have h2 : tr2 = (single_cycle oracle 0 0 fuel).trace := by
        have h3 := mainLoop_zero_trace oracle fuel
        rw [hm] at h3
        exact h3
      rw [h2]
      show settleA ((Event.supplyQuery idnQuery :: (configEvents ++ flashEvents))
          ++ (single_cycle oracle 0 0 fuel).trace) 0 false false none = true
      rw [settleA_startup_head]
      exact settleA_onlyCS ((single_cycle oracle 0 0 fuel).trace)
        (single_cycle_events oracle 0 0 fuel) 2 false false (some (2, 2))

/-- C8: the run passes the supply-identity gate -- and so goes on toward
channel configuration and cycling rather than quitting there -- exactly
when the identity string contains the vendor marker; and when the marker
is absent, startup stops at that gate having issued no supply command
beyond the identity query itself. -/
theorem claim8_supply_identity_gate :
    ∀ (idn : String) (conn : ConnectRes),
      (failedAtSupply (startup idn conn) = true ↔ idnOk idn = false)
      ∧ (idnOk idn = false →
          startup idn conn
            = StartupResult.badSupply [Event.supplyQuery idnQuery]) := by
  intro idn conn
  by_cases hid : idnOk idn = true
  · constructor
    · constructor
      · intro hf
        exfalso
        unfold startup at hf
        rw [if_pos hid] at hf
        cases conn with
        | timedOut => simp [chamberGate, failedAtSupply] at hf
        | connected h p =>
          rw [chamberGate_connected] at hf
          by_cases hp : (h, p) = (peerHost, 2049)
          · rw [if_pos hp] at hf
            simp [failedAtSupply] at hf
          · rw [if_neg hp] at hf
            simp [failedAtSupply] at hf
      · intro hfalse
        rw [hid] at hfalse
        exact Bool.noConfusion hfalse
    · intro hfalse
      rw [hid] at hfalse
      exact Bool.noConfusion hfalse
  · have hid2 : idnOk idn = false := by
      cases hval : idnOk idn
      · rfl
      · exact absurd hval hid
    constructor
    · unfold startup
      rw [if_neg hid]
      simp [failedAtSupply, hid2]
    · intro _
      unfold startup
      rw [if_neg hid]

/-- Witness for C8 at a concrete input: an identity without the vendor
marker makes startup quit at the supply gate with only the identity
query issued. -/
theorem claim8_witness :
    idnOk ("Agilent E3631A") = false
    ∧ startup ("Agilent E3631A") ConnectRes.timedOut
        = StartupResult.badSupply [Event.supplyQuery idnQuery] :=
  ⟨by decide,
   (claim8_supply_identity_gate ("Agilent E3631A") ConnectRes.timedOut).2
     (by decide)⟩

/-- C9: once the supply identity passed, startup reaches the cycle loop
exactly when the chamber connection succeeded and its peer is the
hardcoded target address and port; and startup never sends a chamber
command at all, so a timeout or a peer mismatch quits before any chamber
command is sent. -/
theorem claim9_chamber_gate :
    ∀ (idn : String) (conn : ConnectRes),
      (idnOk idn = true →
        ((startup idn conn).isReady = true
          ↔ conn = ConnectRes.connected peerHost 2049))
      ∧ chamberSendCount ((startup idn conn).trace) = 0 := by
  intro idn conn
  constructor
  · intro hid
    unfold startup
    rw [if_pos hid]
    cases conn with
    | timedOut => simp [chamberGate, StartupResult.isReady]
    | connected h p =>
      rw [chamberGate_connected]
      by_cases hp : (h, p) = (peerHost, 2049)
      · rw [if_pos hp]
        rw [Prod.mk.injEq] at hp
        obtain ⟨hp1, hp2⟩ := hp
        subst hp1
        subst hp2
        simp [StartupResult.isReady]
      · rw [if_neg hp]
        constructor
        · intro hf
          exact absurd hf (by simp [StartupResult.isReady])
        · intro heq
          exfalso
          apply hp
          injection heq with e1 e2
          rw [e1, e2]
  · cases hs : startup idn conn with
    | badSupply tr =>
      rw [startup_badSupply_trace idn conn tr hs]
      decide
    | badChamber tr =>
      rw [startup_badChamber_trace idn conn tr hs]
      decide
    | ready tr =>
      rw [startup_ready_trace idn conn tr hs]
      decide

/-- Witness for C9 at a concrete input: with a Keithley identity and a
connection whose peer is the hardcoded target, startup reaches the cycle
loop. -/
theorem claim9_witness :
    idnOk goodIdn = true ∧ (startup goodIdn goodConn).isReady = true :=
  ⟨by decide, ((claim9_chamber_gate goodIdn goodConn).1 (by decide)).mpr rfl⟩

/-- C10: on every run whose startup checks pass, the startup trace is
exactly the identity query, then the channel configuration, then the
wiring self-test flash -- channel 1 enabled for 1 s then disabled, a 2 s
settle, channel 2 enabled for 1 s then disabled, a 2 s settle -- before
the first cycle starts. -/
theorem claim10_selftest_flash :
    ∀ (idn : String) (conn : ConnectRes),
      (startup idn conn).isReady = true →
      (startup idn conn).trace
          = Event.supplyQuery idnQuery :: (configEvents ++ flashEvents)
      ∧ flashEvents
          = [Event.supplyWrite selCh1, Event.supplyWrite enabOn,
             Event.supplyWrite outpOn, Event.sleep 1, Event.supplyWrite enabOff,
             Event.supplyWrite outpOff, Event.sleep 2, Event.supplyWrite selCh2,
             Event.supplyWrite enabOn, Event.supplyWrite outpOn, Event.sleep 1,
             Event.supplyWrite enabOff, Event.supplyWrite outpOff,
             Event.sleep 2] := by
  intro idn conn hready
  refine ⟨?_, rfl⟩
  cases hs : startup idn conn with
  | badSupply tr =>
    rw [hs] at hready
    simp [StartupResult.isReady] at hready
  | badChamber tr =>
    rw [hs] at hready
    simp [StartupResult.isReady] at hready
  | ready tr =>
    exact startup_ready_trace idn conn tr hs

/-- Witness for C10 at a concrete input: a passing startup whose trace
ends with the self-test flash. -/
theorem claim10_witness :
    (startup goodIdn goodConn).isReady = true
    ∧ (startup goodIdn goodConn).trace
        = Event.supplyQuery idnQuery :: (configEvents ++ flashEvents) :=
  ⟨by decide, (claim10_selftest_flash goodIdn goodConn (by decide)).1⟩

end TC
